import Mathlib

/-!
Verification of the version snapshot, diff, and approval engine of the
`assumptionsmanager` repository.

The embedding covers:
* the comment-validation logic of the Svelte modals
  (`CreateSnapshotModal.svelte`, `RejectVersionModal.svelte`, the resubmit
  modal) that gate the `create_version` / `reject` / `resubmit` requests;
* the centralized API client `request` function
  (`frontend/src/lib/api/client.ts`);
* the compare page helpers `getCellValue` and `calculatePercentage`
  (`frontend/src/routes/(app)/tables/[id]/versions/compare/+page.svelte`);
* the database schema and its row-level-security policies
  (the SQL migration: `assumption_versions`, `UNIQUE(table_id,
  version_number)`, `status ... DEFAULT 'draft'`, the five
  `tenant_isolation_*` policies);
* the backend snapshot manager and diff engine, which are not part of the
  available sources and are therefore modelled from the specification
  (marked `Modelled from the spec:` on each such definition).
-/

namespace AssumptionsManager

/-! ## JavaScript string helpers

The Svelte components validate comments via `String.prototype.trim` and
`.length`; we embed `trim` directly (strip leading/trailing whitespace). -/

/-- Whitespace characters stripped by JavaScript `String.prototype.trim`
(the ASCII ones; the components only ever deal with those). -/
def isJsWhitespace (c : Char) : Bool :=
  c = ' ' || c = '\t' || c = '\n' || c = '\r' || c = Char.ofNat 11 || c = Char.ofNat 12

/-- JavaScript `String.prototype.trim`: drop whitespace from both ends. -/
def jsTrim (s : String) : String :=
  String.mk (((s.data.dropWhile isJsWhitespace).reverse.dropWhile isJsWhitespace).reverse)

/-! ## CreateSnapshotModal (`frontend/src/lib/components/CreateSnapshotModal.svelte`)

`validateComment` and `handleSubmit`: a version-creation request
(`api.post`, body `CreateVersionRequest`) is only issued when validation
passes, and carries the trimmed comment. -/

/-- `CreateVersionRequest` from `frontend/src/lib/api/types` (part_005). -/
structure CreateVersionRequest where
  comment : String
deriving DecidableEq

namespace CreateSnapshotModal

/-- `const MAX_COMMENT_LENGTH = 500` in `CreateSnapshotModal.svelte`. -/
def MAX_COMMENT_LENGTH : Nat := 500

/-- `validateComment` from `CreateSnapshotModal.svelte` lines 33-42: returns
the error message, or `none` when the comment is valid. `!trimmed` in
JavaScript is true exactly for the empty string. -/
def validateComment (value : String) : Option String :=
  let trimmed := jsTrim value
  if trimmed = "" then
    some "Comment is required"
  else if trimmed.length > MAX_COMMENT_LENGTH then
    some "Comment must be 500 characters or less"
  else
    none

/-- `handleSubmit` from `CreateSnapshotModal.svelte` lines 56-85, reduced to
its request-issuing behaviour: when `validateComment` reports an error no
request is made; otherwise `api.post` is called with the trimmed comment. -/
def handleSubmit (comment : String) : Option CreateVersionRequest :=
  match validateComment comment with
  | some _ => none
  | none => some { comment := jsTrim comment }

end CreateSnapshotModal

/-! ## RejectVersionModal (`frontend/src/lib/components/RejectVersionModal.svelte`) -/

/-- `RejectRequest` from `frontend/src/lib/api/types` (part_005): the body
posted to `/tables/{tableId}/versions/{versionId}/reject`. -/
structure RejectRequest where
  comment : String
deriving DecidableEq

namespace RejectVersionModal

/-- `const MIN_COMMENT_LENGTH = 10` in `RejectVersionModal.svelte`. -/
def MIN_COMMENT_LENGTH : Nat := 10

/-- `const MAX_COMMENT_LENGTH = 1000` in `RejectVersionModal.svelte`. -/
def MAX_COMMENT_LENGTH : Nat := 1000

/-- Reactive `isValid` from `RejectVersionModal.svelte` line 39:
`comment.trim().length >= MIN_COMMENT_LENGTH && !commentTooLong`. -/
def isValid (comment : String) : Bool :=
  decide ((jsTrim comment).length ≥ MIN_COMMENT_LENGTH) &&
    !(decide ((jsTrim comment).length > MAX_COMMENT_LENGTH))

/-- `handleSubmit` from `RejectVersionModal.svelte` lines 53-84, reduced to
its request-issuing behaviour: when `isValid` is false it returns before
posting; otherwise it posts `RejectRequest` with the trimmed comment. -/
def handleSubmit (comment : String) : Option RejectRequest :=
  if isValid comment then some { comment := jsTrim comment } else none

end RejectVersionModal

/-! ## Resubmit modal (src/unnamed/part_011, lines 514-595)

The resubmission form posts a `SubmitApprovalRequest` to
`/tables/{tableId}/versions/{versionId}/submit`. -/

/-- `SubmitApprovalRequest` from `frontend/src/lib/api/types` (part_005);
the `comment` field is optional in the TypeScript interface. -/
structure SubmitApprovalRequest where
  comment : Option String
deriving DecidableEq

namespace ResubmitModal

/-- `const MIN_COMMENT_LENGTH = 10` in the resubmit modal (part_011). -/
def MIN_COMMENT_LENGTH : Nat := 10

/-- `const MAX_COMMENT_LENGTH = 500` in the resubmit modal (part_011). -/
def MAX_COMMENT_LENGTH : Nat := 500

/-- Reactive `isValid` from part_011:
`comment.trim().length >= MIN_COMMENT_LENGTH && !commentTooLong`. -/
def isValid (comment : String) : Bool :=
  decide ((jsTrim comment).length ≥ MIN_COMMENT_LENGTH) &&
    !(decide ((jsTrim comment).length > MAX_COMMENT_LENGTH))

/-- `handleSubmit` from part_011 lines 564-595, reduced to its
request-issuing behaviour: invalid comments return before posting;
otherwise the trimmed comment is posted as `SubmitApprovalRequest`. -/
def handleSubmit (comment : String) : Option SubmitApprovalRequest :=
  if isValid comment then some { comment := some (jsTrim comment) } else none

end ResubmitModal

/-! ## Compare page: `calculatePercentage`
(`frontend/src/routes/(app)/tables/[id]/versions/compare/+page.svelte`,
lines 132-135). Numbers are embedded as exact rationals. -/

/-- JavaScript `Math.round`: round half toward positive infinity,
`Math.round x = ⌊x + 1/2⌋`. -/
def jsRound (q : ℚ) : ℤ := Int.floor (q + 1/2)

/-- `calculatePercentage` from the compare page:
`if (total === 0) return 0; return Math.min(100, Math.round((value / total) * 100));`. -/
def calculatePercentage (value total : ℚ) : ℚ :=
  if total = 0 then 0 else min 100 ((jsRound (value / total * 100) : ℚ))

/-! ## API client (`frontend/src/lib/api/client.ts`)

The `request` function wraps `fetch`. We embed the JSON values a response
body can parse to, the parse outcome (`none` when `response.json()`
throws), and the resulting `ApiResponse`. -/

/-- A parsed JSON value (the result of `response.json()`). -/
inductive Json where
  | null : Json
  | bool (b : Bool) : Json
  | num (n : ℤ) : Json
  | str (s : String) : Json
  | arr (xs : List Json) : Json
  | obj (fields : List (String × Json)) : Json

/-- JavaScript property access `j.k` on a parsed JSON value: defined only
on objects, `undefined` (here `none`) otherwise. -/
def objGet (j : Json) (k : String) : Option Json :=
  match j with
  | Json.obj fields => fields.lookup k
  | _ => none

/-- `ApiError` from `client.ts`: status code, message, optional detail. -/
structure ApiError where
  status : Nat
  message : String
  detail : Option String := none

/-- `ApiResponse<T>` from `client.ts`. `data = some none` models the
`{ data: undefined }` returned for 204 No Content; `data = some (some j)`
a parsed JSON body. -/
structure ApiResponse where
  data : Option (Option Json) := none
  error : Option ApiError := none

/-- `response.ok`: status in the range 200-299. -/
def responseOk (status : Nat) : Bool :=
  decide (200 ≤ status) && decide (status ≤ 299)

/-- JavaScript `statusText || 'An error occurred'` (empty string is falsy). -/
def statusTextOr (statusText : String) : String :=
  if statusText = "" then "An error occurred" else statusText

/-- Whether a JSON value is `null` (accessing a property on it throws). -/
def jsonIsNull : Json → Bool
  | Json.null => true
  | _ => false

/-- One entry of a FastAPI validation-error array: `e.msg || 'Validation
error'` (from `parseErrorResponse`; `||` treats the empty string as falsy,
and a non-string or absent `msg` also falls back). -/
def validationMsg (e : Json) : String :=
  match objGet e "msg" with
  | some (Json.str m) => if m = "" then "Validation error" else m
  | _ => "Validation error"

/-- `parseErrorResponse` from `client.ts` lines 95-123. The body argument
is the outcome of `await response.json()` (`none` when it throws, which is
caught and yields the statusText fallback). Accessing `.detail` on a null
body, or `.msg` on a null array element, throws inside the `try` and is
likewise caught. -/
def parseErrorResponse (status : Nat) (statusText : String) (body : Option Json) :
    ApiError :=
  match body with
  | none => { status := status, message := statusTextOr statusText }
  | some Json.null => { status := status, message := statusTextOr statusText }
  | some data =>
    match objGet data "detail" with
    | some (Json.str s) =>
      { status := status, message := s, detail := some s }
    | some (Json.arr xs) =>
      if xs.any jsonIsNull then
        { status := status, message := statusTextOr statusText }
      else
        { status := status,
          message := String.intercalate ", " (xs.map validationMsg) }
    | _ =>
      match objGet data "message" with
      | some (Json.str m) => { status := status, message := m }
      | _ => { status := status, message := statusTextOr statusText }

/-- The outcome of the `fetch` call inside `request`: either the promise
rejects (network error), or a response arrives with a status, a statusText
and a body whose JSON parse outcome is `body` (`none` when
`response.json()` would throw). -/
inductive FetchOutcome where
  | networkError : FetchOutcome
  | response (status : Nat) (statusText : String) (body : Option Json) : FetchOutcome

/-- The `{ error: { status: 0, message: 'Network error. ...' } }` result
built in the catch block of `request`. -/
def networkErrorResult : ApiResponse :=
  { error := some { status := 0, message := "Network error. Please check your connection." } }

/-- `request` from `client.ts` lines 128-205, as a function of the fetch
outcome: 401 (unless `skipAuth`) logs the user out and returns a session
error; other non-ok responses return `parseErrorResponse`; 204 returns
`{ data: undefined }`; otherwise the parsed body is returned as data, and
a body that fails to parse throws inside the outer `try`, landing in the
network-error catch block. -/
def request (skipAuth : Bool) (outcome : FetchOutcome) : ApiResponse :=
  match outcome with
  | FetchOutcome.networkError => networkErrorResult
  | FetchOutcome.response status statusText body =>
    if status = 401 && !skipAuth then
      { error := some { status := 401, message := "Session expired. Please sign in again." } }
    else if !(responseOk status) then
      { error := some (parseErrorResponse status statusText body) }
    else if status = 204 then
      { data := some none }
    else
      match body with
      | some j => { data := some (some j) }
      | none => networkErrorResult

/-! ## Diff engine

The backend service computing diffs is not part of the available sources
(only its TypeScript response types in `frontend/src/lib/api/types` and
the compare page consuming them are). The cell/row/summary structures
below mirror those TypeScript interfaces; `compute_diff` itself is
modelled from the specification (§4.3). -/

/-- Modelled from the spec: one frozen (row_index, column_name, value)
triple belonging to a Version; `value = none` is SQL NULL, distinct from
the empty string. -/
structure VersionCell where
  row_index : ℤ
  column_name : String
  value : Option String
deriving DecidableEq

/-- Modelled from the spec: the set of VersionCells of one Version. -/
abbrev Snapshot := List VersionCell

/-- The value stored for a (row_index, column_name) pair: `none` when no
cell is defined there, `some v` for a defined cell of value `v`. -/
def cellAt (s : Snapshot) (r : ℤ) (c : String) : Option (Option String) :=
  (s.find? (fun vc => vc.row_index == r && vc.column_name == c)).map VersionCell.value

/-- Row indices present in a snapshot (first-occurrence order). -/
def rowIndices (s : Snapshot) : List ℤ :=
  (s.map VersionCell.row_index).dedup

/-- Modelled from the spec: the column universe for comparison is the
union of column names appearing in either version's VersionCells. -/
def columnUniverse (a b : Snapshot) : List String :=
  ((a ++ b).map VersionCell.column_name).dedup

/-- The defined cells of one row, as the column-name-to-value record
(`CellData`) used for added/removed rows in the diff response. -/
def rowCells (s : Snapshot) (r : ℤ) : List (String × Option String) :=
  (s.filter (fun vc => vc.row_index == r)).map (fun vc => (vc.column_name, vc.value))

/-- Cell status enum of the `DiffCell` TypeScript interface. -/
inductive CellStatus where
  | unchanged : CellStatus
  | modified : CellStatus
  | added : CellStatus
  | removed : CellStatus
deriving DecidableEq

/-- `DiffCell` from `frontend/src/lib/api/types` (part_005): optional
fields model TypeScript optional properties (`none` = the field is
absent); the inner `Option String` is a nullable cell value. -/
structure DiffCell where
  column_name : String
  old_value : Option (Option String) := none
  new_value : Option (Option String) := none
  value : Option (Option String) := none
  status : CellStatus
deriving DecidableEq

/-- Modelled from the spec: per-cell status within a matched row —
`unchanged` if the raw text values agree (null, empty string and absent
all distinct), `modified` otherwise carrying old/new values. -/
def cellDiff (a b : Snapshot) (r : ℤ) (c : String) : DiffCell :=
  let old := cellAt a r c
  let new := cellAt b r c
  if old = new then
    { column_name := c, value := new, status := CellStatus.unchanged }
  else
    { column_name := c, old_value := old, new_value := new, status := CellStatus.modified }

/-- Row change kind of the `RowChange` TypeScript interface. -/
inductive RowChangeType where
  | row_added : RowChangeType
  | row_removed : RowChangeType
  | row_modified : RowChangeType
deriving DecidableEq

/-- `RowChange.cells` is `DiffCell[] | CellData` in TypeScript: a plain
column-to-value record for added/removed rows, an array of `DiffCell` for
modified rows. -/
inductive ChangeCells where
  | dict (cells : List (String × Option String)) : ChangeCells
  | diffs (cells : List DiffCell) : ChangeCells
deriving DecidableEq

/-- `RowChange` from `frontend/src/lib/api/types` (part_005). -/
structure RowChange where
  type : RowChangeType
  row_index : ℤ
  cells : ChangeCells
deriving DecidableEq

/-- `DiffSummary` from `frontend/src/lib/api/types` (part_005). -/
structure DiffSummary where
  total_changes : ℕ
  rows_added : ℕ
  rows_removed : ℕ
  cells_modified : ℕ
deriving DecidableEq

/-- The parts of `FormattedDiffResponse` the claims are about. -/
structure DiffResult where
  summary : DiffSummary
  changes : List RowChange
deriving DecidableEq

/-- Modelled from the spec: row indices present only in `b` are
`row_added`. -/
def addedRows (a b : Snapshot) : List ℤ :=
  (rowIndices b).filter (fun r => !((rowIndices a).contains r))

/-- Modelled from the spec: row indices present only in `a` are
`row_removed`. -/
def removedRows (a b : Snapshot) : List ℤ :=
  (rowIndices a).filter (fun r => !((rowIndices b).contains r))

/-- Modelled from the spec: the cell-by-cell comparison of one matched
row over the column universe. -/
def rowDiffCells (a b : Snapshot) (r : ℤ) : List DiffCell :=
  (columnUniverse a b).map (cellDiff a b r)

/-- Modelled from the spec: rows present in both versions with at least
one differing cell are `row_modified`; matched rows with zero differing
cells are omitted. -/
def modifiedRows (a b : Snapshot) : List ℤ :=
  ((rowIndices b).filter (fun r => (rowIndices a).contains r)).filter
    (fun r => (rowDiffCells a b r).any (fun d => d.status == CellStatus.modified))

/-- Modelled from the spec: the changed-rows output (added rows carry the
plain cell record of `b`, removed rows that of `a`, modified rows their
`DiffCell` array; the spec fixes no order between the three groups). -/
def diffChanges (a b : Snapshot) : List RowChange :=
  (addedRows a b).map (fun r =>
    { type := RowChangeType.row_added, row_index := r, cells := ChangeCells.dict (rowCells b r) }) ++
  (removedRows a b).map (fun r =>
    { type := RowChangeType.row_removed, row_index := r, cells := ChangeCells.dict (rowCells a r) }) ++
  (modifiedRows a b).map (fun r =>
    { type := RowChangeType.row_modified, row_index := r, cells := ChangeCells.diffs (rowDiffCells a b r) })

/-- Modelled from the spec: `cells_modified` counts the modified-row cell
diffs only. -/
def cellsModifiedCount (a b : Snapshot) : ℕ :=
  ((modifiedRows a b).map (fun r =>
    ((rowDiffCells a b r).filter (fun d => d.status == CellStatus.modified)).length)).sum

/-- Modelled from the spec: `compute_diff` (§4.3) with the summary counts
`rows_added`, `rows_removed`, `cells_modified` and `total_changes` =
rows_added + rows_removed + cells_modified. -/
def compute_diff (a b : Snapshot) : DiffResult :=
  { summary :=
      { rows_added := (addedRows a b).length,
        rows_removed := (removedRows a b).length,
        cells_modified := cellsModifiedCount a b,
        total_changes := (addedRows a b).length + (removedRows a b).length + cellsModifiedCount a b },
    changes := diffChanges a b }

/-- The number of modified-status cell diffs a `RowChange.cells` carries
(a plain record, as used for added/removed rows, carries none). -/
def modifiedCellCount : ChangeCells → ℕ
  | ChangeCells.dict _ => 0
  | ChangeCells.diffs ds => (ds.filter (fun d => d.status == CellStatus.modified)).length

/-! ## Compare page: `getCellValue`
(`frontend/src/routes/(app)/tables/[id]/versions/compare/+page.svelte`,
lines 78-105). -/

/-- The status strings of the backend diff enum as they appear in the
`DiffCell.status` JSON field consumed by the compare page. -/
def statusName : CellStatus → String
  | CellStatus.unchanged => "unchanged"
  | CellStatus.modified => "modified"
  | CellStatus.added => "added"
  | CellStatus.removed => "removed"

/-- The record returned by `getCellValue`: `oldValue`/`newValue` are
`none` when the code does not set those properties. -/
structure CellView where
  value : Option String
  oldValue : Option (Option String) := none
  newValue : Option (Option String) := none
  status : String
deriving DecidableEq

/-- `change.cells as Record<string, unknown>`: property lookup by column
name on an array of `DiffCell` finds nothing. -/
def asDict : ChangeCells → List (String × Option String)
  | ChangeCells.dict d => d
  | ChangeCells.diffs _ => []

/-- `cells[columnName] ?? null`: an absent property is `undefined`, and
`??` maps both `undefined` and `null` to `null` (`none`). -/
def dictGet (d : List (String × Option String)) (c : String) : Option String :=
  match d.lookup c with
  | some v => v
  | none => none

/-- `cell.value ?? cell.new_value ?? null`: the first operand that is
neither absent nor null, else null. -/
def jsCoalesceValue (v nv : Option (Option String)) : Option String :=
  match v with
  | some (some x) => some x
  | _ =>
    match nv with
    | some (some x) => some x
    | _ => none

/-- `getCellValue` from the compare page lines 78-105: added/removed rows
read the plain cell record and synthesize status `added`/`removed` with
only `value` populated; modified rows look the column up in the
`DiffCell` array; anything else yields `null`. -/
def getCellValue (change : RowChange) (columnName : String) : Option CellView :=
  if change.type = RowChangeType.row_added ∨ change.type = RowChangeType.row_removed then
    some { value := dictGet (asDict change.cells) columnName,
           status := if change.type = RowChangeType.row_added then "added" else "removed" }
  else
    match change.cells with
    | ChangeCells.diffs ds =>
      match ds.find? (fun c => c.column_name == columnName) with
      | some cell =>
        some { value := jsCoalesceValue cell.value cell.new_value,
               oldValue := cell.old_value,
               newValue := cell.new_value,
               status := statusName cell.status }
      | none => none
    | ChangeCells.dict _ => none

/-! ## Snapshot manager numbering and the `assumption_versions` schema

`create_version` lives in the backend, which is not part of the available
sources; its numbering and initialization are modelled from the
specification (§4.2). The schema facts (`UNIQUE(table_id,
version_number)`, `status ... DEFAULT 'draft'`) are from the SQL
migration (src/unnamed/part_003, lines 36-48). -/

/-- Modelled from the spec: the attributes of a Version record relevant to
numbering and approval-status initialization. -/
structure VersionRec where
  version_number : ℕ
  status : String
  comment : String
deriving DecidableEq

/-- Modelled from the spec: `version_number = max(existing version_numbers
for table, default 0) + 1`. -/
def nextVersionNumber (existing : List ℕ) : ℕ :=
  existing.foldr max 0 + 1

/-- Modelled from the spec: `create_version` allocates the next number and
inserts the Version atomically (number allocation and insert in one
serializable transaction, so every admissible concurrent history is one
of these sequential ones), initializing the approval status to draft. -/
def create_version (versions : List VersionRec) (comment : String) : List VersionRec :=
  { version_number := nextVersionNumber (versions.map VersionRec.version_number),
    status := "draft",
    comment := comment } :: versions

/-- N successive `create_version` calls against one table, starting from no
versions. -/
def createVersions (comments : List String) : List VersionRec :=
  comments.foldl create_version []

/-- The list `[n, n-1, ..., 1]`. -/
def countdown : ℕ → List ℕ
  | 0 => []
  | n + 1 => (n + 1) :: countdown n

/-- The key of the `UNIQUE(table_id, version_number)` constraint on
`assumption_versions` (src/unnamed/part_003, line 47). -/
structure VersionKey where
  table_id : String
  version_number : ℕ
deriving DecidableEq

/-- Inserting into `assumption_versions`: the `UNIQUE(table_id,
version_number)` constraint rejects a row whose key already exists. -/
def uniqueVersionInsert (existing : List VersionKey) (k : VersionKey) :
    Except String (List VersionKey) :=
  if k ∈ existing then
    Except.error "duplicate key value violates unique constraint"
  else
    Except.ok (k :: existing)

/-- The `status VARCHAR(50) NOT NULL DEFAULT 'draft'` column of
`assumption_versions` (src/unnamed/part_003, line 41): a row inserted
without an explicit status receives 'draft'. -/
def insertedVersionStatus (explicit : Option String) : String :=
  explicit.getD "draft"

/-! ## Row-level security (src/unnamed/part_003, lines 82-106)

The migration enables RLS on the five tenant-scoped tables and creates one
`FOR ALL USING (tenant_id = current_setting('app.current_tenant')::UUID)`
policy per table. Queries run as `app_user`, which owns none of the tables
and has no BYPASSRLS, so the policies apply. `FOR ALL ... USING` without a
`WITH CHECK` uses the USING expression as the check on new rows too. -/

/-- The connection-scoped settings (`SET app.current_tenant = ...`). -/
abbrev DbSettings := String → Option String

/-- PostgreSQL `current_setting(key)`: `none` models the error raised for
an unset key (which aborts the query, so no rows are visible). -/
def current_setting (settings : DbSettings) (key : String) : Option String :=
  settings key

/-- A row of one of the five tenant-scoped tables: the `tenant_id` column
plus the remaining columns as an opaque payload. -/
structure TenantRow (α : Type) where
  tenant_id : String
  payload : α
deriving DecidableEq

/-- The USING expression all five policies share:
`tenant_id = current_setting('app.current_tenant')::UUID`. -/
def tenantIsolationUsing {α : Type} (settings : DbSettings) (r : TenantRow α) : Bool :=
  match current_setting settings "app.current_tenant" with
  | some t => r.tenant_id == t
  | none => false

/-- `CREATE POLICY tenant_isolation_users ON users FOR ALL USING (...)`. -/
def tenant_isolation_users {α : Type} (settings : DbSettings) : TenantRow α → Bool :=
  tenantIsolationUsing settings

/-- `CREATE POLICY tenant_isolation_tables ON assumption_tables ...`. -/
def tenant_isolation_tables {α : Type} (settings : DbSettings) : TenantRow α → Bool :=
  tenantIsolationUsing settings

/-- `CREATE POLICY tenant_isolation_versions ON assumption_versions ...`. -/
def tenant_isolation_versions {α : Type} (settings : DbSettings) : TenantRow α → Bool :=
  tenantIsolationUsing settings

/-- `CREATE POLICY tenant_isolation_data ON assumption_data ...`. -/
def tenant_isolation_data {α : Type} (settings : DbSettings) : TenantRow α → Bool :=
  tenantIsolationUsing settings

/-- `CREATE POLICY tenant_isolation_audit ON audit_log ...`. -/
def tenant_isolation_audit {α : Type} (settings : DbSettings) : TenantRow α → Bool :=
  tenantIsolationUsing settings

/-- SELECT under row-level security: only rows passing the policy's USING
expression are visible. -/
def rlsSelect {α : Type} (policy : TenantRow α → Bool) (rows : List (TenantRow α)) :
    List (TenantRow α) :=
  rows.filter policy

/-- DELETE under row-level security: only visible rows matching the WHERE
condition are removed. -/
def rlsDelete {α : Type} (policy cond : TenantRow α → Bool) (rows : List (TenantRow α)) :
    List (TenantRow α) :=
  rows.filter (fun r => !(policy r && cond r))

/-- UPDATE under row-level security: only visible rows matching the WHERE
condition are updated, and every updated row must still pass the policy
(the implicit WITH CHECK of a `FOR ALL` policy). -/
def rlsUpdate {α : Type} (policy cond : TenantRow α → Bool)
    (f : TenantRow α → TenantRow α) (rows : List (TenantRow α)) :
    Except String (List (TenantRow α)) :=
  if rows.any (fun r => policy r && cond r && !(policy (f r))) then
    Except.error "new row violates row-level security policy"
  else
    Except.ok (rows.map (fun r => if policy r && cond r then f r else r))

/-! ## Concrete instances used by witnesses -/

/-- The version-1 snapshot of the spec's §8 scenario:
row 0 = `{age: "30", qx: "0.01"}`. -/
def scenarioV1 : Snapshot :=
  [{ row_index := 0, column_name := "age", value := some "30" },
   { row_index := 0, column_name := "qx", value := some "0.01" }]

/-- The version-2 snapshot of the spec's §8 scenario:
row 0 = `{age: "30", qx: "0.02"}`, row 1 = `{age: "31", qx: "0.015"}`. -/
def scenarioV2 : Snapshot :=
  [{ row_index := 0, column_name := "age", value := some "30" },
   { row_index := 0, column_name := "qx", value := some "0.02" },
   { row_index := 1, column_name := "age", value := some "31" },
   { row_index := 1, column_name := "qx", value := some "0.015" }]

/-- A connection whose `app.current_tenant` setting is `tenant-a`. -/
def exampleSettings : DbSettings :=
  fun key => if key = "app.current_tenant" then some "tenant-a" else none

end AssumptionsManager

namespace AssumptionsManager

/-! ## Theorems for claims C1 through C10 -/

/-- In a list mapped to all-zero values the sum is zero. -/
theorem sum_map_eq_zero {α : Type} (l : List α) (f : α → ℕ)
    (h : ∀ x ∈ l, f x = 0) : (l.map f).sum = 0 := by
  induction l with
  | nil => rfl
  | cons x xs ih =>
    simp only [List.map_cons, List.sum_cons, h x (List.mem_cons_self x xs), Nat.zero_add]
    exact ih (fun y hy => h y (List.mem_cons_of_mem x hy))

/-- Folding `max` over `[n, ..., 1]` yields `n`. -/
theorem foldr_max_countdown (n : ℕ) : (countdown n).foldr max 0 = n := by
  induction n with
  | zero => rfl
  | succ n ih =>
    simp only [countdown, List.foldr_cons, ih]
    omega

/-- Membership in `[n, ..., 1]` is exactly `1 ≤ k ≤ n`. -/
theorem mem_countdown (n k : ℕ) : k ∈ countdown n ↔ 1 ≤ k ∧ k ≤ n := by
  induction n with
  | zero =>
    simp only [countdown, List.not_mem_nil, false_iff]
    omega
  | succ n ih =>
    simp only [countdown, List.mem_cons, ih]
    omega

/-- `[n, ..., 1]` has no duplicates. -/
theorem nodup_countdown (n : ℕ) : (countdown n).Nodup := by
  induction n with
  | zero => exact List.nodup_nil
  | succ n ih =>
    refine List.Nodup.cons ?_ ih
    intro hmem
    have := (mem_countdown n (n + 1)).mp hmem
    omega

/-- After any prefix of calls whose version numbers are `[k, ..., 1]`, the
next `create_version` call allocates `k + 1`. -/
theorem createVersions_numbers_aux (cs : List String) :
    ∀ (vs : List VersionRec) (k : ℕ),
      vs.map VersionRec.version_number = countdown k →
      (cs.foldl create_version vs).map VersionRec.version_number =
        countdown (k + cs.length) := by
  induction cs with
  | nil => intro vs k h; simpa using h
  | cons c cs ih =>
    intro vs k h
    simp only [List.foldl_cons]
    have h2 : (create_version vs c).map VersionRec.version_number = countdown (k + 1) := by
      simp only [create_version, List.map_cons, nextVersionNumber, h, foldr_max_countdown,
        countdown]
    have h3 := ih (create_version vs c) (k + 1) h2
    have h4 : k + 1 + cs.length = k + (cs.length + 1) := by omega
    rw [h4] at h3
    simpa using h3

/-- The version numbers after `N` calls are `[N, ..., 1]`. -/
theorem createVersions_numbers (comments : List String) :
    (createVersions comments).map VersionRec.version_number = countdown comments.length := by
  have := createVersions_numbers_aux comments [] 0 rfl
  simpa [createVersions] using this

end AssumptionsManager

namespace AssumptionsManager

/-! ## Theorems for claims C3, C4, C5, C8, C9 -/

/-- C3: the reject transition requires a comment of length between the
configured minimum (10) and maximum (1000); a reject attempt whose trimmed
comment is shorter than the minimum issues no reject request at all (the
state transition is never requested), and one longer than the maximum is
likewise blocked. -/
theorem C3_reject_short_comment_blocked (comment : String)
    (h : (jsTrim comment).length < RejectVersionModal.MIN_COMMENT_LENGTH) :
    RejectVersionModal.handleSubmit comment = none ∧
    RejectVersionModal.MIN_COMMENT_LENGTH = 10 ∧
    RejectVersionModal.MAX_COMMENT_LENGTH = 1000 := by
  refine ⟨?_, rfl, rfl⟩
  unfold RejectVersionModal.handleSubmit RejectVersionModal.isValid
  have : ¬ ((jsTrim comment).length ≥ RejectVersionModal.MIN_COMMENT_LENGTH) :=
    Nat.not_le_of_lt h
  simp [this]

/-- Witness for C3 at the concrete comment `"too short"` (trimmed length 9). -/
theorem C3_reject_short_comment_blocked_witness :
    (jsTrim "too short").length < RejectVersionModal.MIN_COMMENT_LENGTH ∧
    (RejectVersionModal.handleSubmit "too short" = none ∧
      RejectVersionModal.MIN_COMMENT_LENGTH = 10 ∧
      RejectVersionModal.MAX_COMMENT_LENGTH = 1000) :=
  ⟨by decide, C3_reject_short_comment_blocked "too short" (by decide)⟩

/-- C4: the resubmit transition requires a comment of trimmed length at
least the configured minimum (10): a shorter comment issues no submit
request, and a valid one posts exactly the trimmed comment in the
`SubmitApprovalRequest` body. -/
theorem C4_resubmit_comment_rules (comment : String) :
    ((jsTrim comment).length < ResubmitModal.MIN_COMMENT_LENGTH →
      ResubmitModal.handleSubmit comment = none) ∧
    (ResubmitModal.isValid comment = true →
      ResubmitModal.handleSubmit comment = some { comment := some (jsTrim comment) }) ∧
    ResubmitModal.MIN_COMMENT_LENGTH = 10 := by
  refine ⟨?_, ?_, rfl⟩
  · intro h
    unfold ResubmitModal.handleSubmit ResubmitModal.isValid
    have : ¬ ((jsTrim comment).length ≥ ResubmitModal.MIN_COMMENT_LENGTH) :=
      Nat.not_le_of_lt h
    simp [this]
  · intro h
    unfold ResubmitModal.handleSubmit
    simp [h]

/-- Witness for C4: the short comment `"short"` issues no request, while a
valid comment posts its trimmed text. -/
theorem C4_resubmit_comment_rules_witness :
    ResubmitModal.handleSubmit "short" = none ∧
    ResubmitModal.handleSubmit " fixed the rates " =
      some { comment := some (jsTrim " fixed the rates ") } :=
  ⟨(C4_resubmit_comment_rules "short").1 (by decide),
   (C4_resubmit_comment_rules " fixed the rates ").2.1 (by decide)⟩

/-- C5: a create-snapshot submission issues a version-creation request if
and only if the trimmed comment is non-empty and within the 500-character
form limit, and the issued request carries exactly the trimmed comment. -/
theorem C5_create_version_comment_nonempty (comment : String) :
    ((∃ req, CreateSnapshotModal.handleSubmit comment = some req) ↔
      (jsTrim comment ≠ "" ∧
        (jsTrim comment).length ≤ CreateSnapshotModal.MAX_COMMENT_LENGTH)) ∧
    (∀ req, CreateSnapshotModal.handleSubmit comment = some req →
      req.comment = jsTrim comment) ∧
    CreateSnapshotModal.MAX_COMMENT_LENGTH = 500 := by
  unfold CreateSnapshotModal.handleSubmit CreateSnapshotModal.validateComment
  refine ⟨?_, ?_, rfl⟩
  · by_cases h1 : jsTrim comment = ""
    · simp [h1]
    · by_cases h2 : (jsTrim comment).length > CreateSnapshotModal.MAX_COMMENT_LENGTH
      · simp [h1, h2, Nat.not_le_of_lt h2]
      · simp [h1, h2, Nat.le_of_not_lt h2]
  · by_cases h1 : jsTrim comment = ""
    · simp [h1]
    · by_cases h2 : (jsTrim comment).length > CreateSnapshotModal.MAX_COMMENT_LENGTH
      · simp [h1, h2]
      · intro req h
        simp [h1, h2] at h
        simp [← h]

/-- Witness for C5 at the concrete comment `"  snapshot for Q1  "`. -/
theorem C5_create_version_comment_nonempty_witness :
    ((∃ req, CreateSnapshotModal.handleSubmit "  snapshot for Q1  " = some req) ↔
      (jsTrim "  snapshot for Q1  " ≠ "" ∧
        (jsTrim "  snapshot for Q1  ").length ≤ CreateSnapshotModal.MAX_COMMENT_LENGTH)) ∧
    (∀ req, CreateSnapshotModal.handleSubmit "  snapshot for Q1  " = some req →
      req.comment = jsTrim "  snapshot for Q1  ") ∧
    CreateSnapshotModal.MAX_COMMENT_LENGTH = 500 :=
  C5_create_version_comment_nonempty "  snapshot for Q1  "

/-- C8 counterexample: a 200 response whose body fails to parse as JSON is
a success by status, yet `request` returns no data and the network-error
`ApiError` with status 0 — refuting "every success yields data without an
error" as stated. -/
theorem C8_request_counterexample :
    responseOk 200 = true ∧
    (request false (FetchOutcome.response 200 "OK" none)).data = none ∧
    (request false (FetchOutcome.response 200 "OK" none)).error =
      some { status := 0, message := "Network error. Please check your connection." } :=
  ⟨rfl, rfl, rfl⟩

/-- Every branch of `parseErrorResponse` carries over the response status
code unchanged. -/
theorem parseErrorResponse_status (s : Nat) (st : String) (b : Option Json) :
    (parseErrorResponse s st b).status = s := by
  unfold parseErrorResponse
  split
  · rfl
  · rfl
  · split
    · rfl
    · split <;> rfl
    · split <;> rfl

/-- C8 amended: `request` never throws and never returns both data and
error; every non-2xx response yields an error carrying the response status
code and a message; a network failure yields status 0; every 2xx response
that is a 204 or whose body parses as JSON yields data without an error;
but a 2xx non-204 response whose body fails to parse yields the
network-error result (status 0) instead of data. -/
theorem C8_request_error_contract (skipAuth : Bool) (oc : FetchOutcome) :
    ((request skipAuth oc).data = none ∨ (request skipAuth oc).error = none) ∧
    (oc = FetchOutcome.networkError →
      (request skipAuth oc).error =
        some { status := 0, message := "Network error. Please check your connection." }) ∧
    (∀ s st b, oc = FetchOutcome.response s st b → responseOk s = false →
      (request skipAuth oc).data = none ∧
      ∃ e, (request skipAuth oc).error = some e ∧ e.status = s) ∧
    (∀ s st b, oc = FetchOutcome.response s st b → responseOk s = true →
      (s = 204 ∨ b.isSome = true) →
      (request skipAuth oc).error = none ∧ (request skipAuth oc).data.isSome = true) ∧
    (∀ s st b, oc = FetchOutcome.response s st b → responseOk s = true →
      s ≠ 204 → b = none → request skipAuth oc = networkErrorResult) := by
  refine ⟨?_, ?_, ?_, ?_, ?_⟩
  · cases oc with
    | networkError => exact Or.inl rfl
    | response s st b =>
      simp only [request]
      split
      · exact Or.inl rfl
      · split
        · exact Or.inl rfl
        · split
          · exact Or.inr rfl
          · cases b with
            | some j => exact Or.inr rfl
            | none => exact Or.inl rfl
  · intro h; subst h; rfl
  · intro s st b h hok
    subst h
    by_cases hs : s = 401
    · subst hs
      cases skipAuth with
      | false =>
        refine ⟨rfl, ?_⟩
        exact ⟨{ status := 401, message := "Session expired. Please sign in again." },
          rfl, rfl⟩
      | true =>
        refine ⟨rfl, parseErrorResponse 401 st b, rfl, parseErrorResponse_status 401 st b⟩
    · have hcond : (decide (s = 401) && !skipAuth) = false := by simp [hs]
      simp only [request, hcond, Bool.false_eq_true, if_false, hok, Bool.not_false, if_true]
      exact ⟨trivial, parseErrorResponse s st b, rfl, parseErrorResponse_status s st b⟩
  · intro s st b h hok hbody
    subst h
    have hs : s ≠ 401 := by
      intro hs
      subst hs
      exact absurd hok (by decide)
    have hcond : (decide (s = 401) && !skipAuth) = false := by simp [hs]
    rcases hbody with h204 | hsome
    · subst h204
      simp [request, hcond, hok]
    · cases b with
      | none => simp at hsome
      | some j =>
        by_cases h3 : s = 204
        · subst h3; simp [request, hcond, hok]
        · simp [request, hcond, hok, h3]
  · intro s st b h hok h204 hb
    subst h; subst hb
    have hs : s ≠ 401 := by
      intro hs
      subst hs
      exact absurd hok (by decide)
    have hcond : (decide (s = 401) && !skipAuth) = false := by simp [hs]
    simp [request, hcond, hok, h204]

/-- Witness for C8: evaluating the contract at a 404 response with a
string `detail` body. -/
theorem C8_request_error_contract_witness :
    ((request false (FetchOutcome.response 404 "Not Found"
        (some (Json.obj [("detail", Json.str "Table not found")])))).data = none ∨
      (request false (FetchOutcome.response 404 "Not Found"
        (some (Json.obj [("detail", Json.str "Table not found")])))).error = none) ∧
    (FetchOutcome.response 404 "Not Found"
        (some (Json.obj [("detail", Json.str "Table not found")])) =
          FetchOutcome.networkError →
      (request false (FetchOutcome.response 404 "Not Found"
        (some (Json.obj [("detail", Json.str "Table not found")])))).error =
        some { status := 0, message := "Network error. Please check your connection." }) ∧
    (∀ s st b, FetchOutcome.response 404 "Not Found"
        (some (Json.obj [("detail", Json.str "Table not found")])) =
          FetchOutcome.response s st b → responseOk s = false →
      (request false (FetchOutcome.response 404 "Not Found"
        (some (Json.obj [("detail", Json.str "Table not found")])))).data = none ∧
      ∃ e, (request false (FetchOutcome.response 404 "Not Found"
        (some (Json.obj [("detail", Json.str "Table not found")])))).error = some e ∧
        e.status = s) ∧
    (∀ s st b, FetchOutcome.response 404 "Not Found"
        (some (Json.obj [("detail", Json.str "Table not found")])) =
          FetchOutcome.response s st b → responseOk s = true →
      (s = 204 ∨ b.isSome = true) →
      (request false (FetchOutcome.response 404 "Not Found"
        (some (Json.obj [("detail", Json.str "Table not found")])))).error = none ∧
      (request false (FetchOutcome.response 404 "Not Found"
        (some (Json.obj [("detail", Json.str "Table not found")])))).data.isSome = true) ∧
    (∀ s st b, FetchOutcome.response 404 "Not Found"
        (some (Json.obj [("detail", Json.str "Table not found")])) =
          FetchOutcome.response s st b → responseOk s = true →
      s ≠ 204 → b = none →
      request false (FetchOutcome.response 404 "Not Found"
        (some (Json.obj [("detail", Json.str "Table not found")]))) = networkErrorResult) :=
  C8_request_error_contract false
    (FetchOutcome.response 404 "Not Found"
      (some (Json.obj [("detail", Json.str "Table not found")])))

/-- C9 counterexample: the claim quantifies over every `total`, but
`calculatePercentage 1 (-1)` evaluates to `-100`, which is not in
`[0, 100]`. -/
theorem C9_calculatePercentage_counterexample :
    calculatePercentage 1 (-1) = -100 ∧ ¬ (0 ≤ calculatePercentage 1 (-1)) := by
  have h : calculatePercentage 1 (-1) = -100 := by
    unfold calculatePercentage jsRound
    norm_num
  constructor
  · exact h
  · rw [h]; norm_num

/-- C9 amended: for every non-negative `value` and non-negative `total`,
`calculatePercentage` is total and returns an integer in `[0, 100]`; it
returns 0 when `total = 0` (the division never executes with a zero
divisor) and `min 100 (round (100 * value / total))` otherwise. -/
theorem C9_calculatePercentage_bounds (value total : ℚ)
    (hv : 0 ≤ value) (ht : 0 ≤ total) :
    (total = 0 → calculatePercentage value total = 0) ∧
    (total ≠ 0 →
      calculatePercentage value total = min 100 ((jsRound (value / total * 100) : ℚ))) ∧
    0 ≤ calculatePercentage value total ∧
    calculatePercentage value total ≤ 100 ∧
    ∃ n : ℤ, calculatePercentage value total = (n : ℚ) := by
  by_cases h : total = 0
  · refine ⟨fun _ => by simp [calculatePercentage, h], fun hne => absurd h hne, ?_, ?_, ⟨0, ?_⟩⟩ <;>
      simp [calculatePercentage, h]
  · have htpos : 0 < total := lt_of_le_of_ne ht (Ne.symm h)
    have hq : 0 ≤ value / total * 100 := by positivity
    have hfloor : 0 ≤ jsRound (value / total * 100) := by
      unfold jsRound
      exact Int.floor_nonneg.mpr (by linarith)
    have hres : calculatePercentage value total =
        min 100 ((jsRound (value / total * 100) : ℚ)) := by
      simp [calculatePercentage, h]
    refine ⟨fun h0 => absurd h0 h, fun _ => hres, ?_, ?_, ?_⟩
    · rw [hres]
      exact le_min (by norm_num) (by exact_mod_cast hfloor)
    · rw [hres]
      exact min_le_left _ _
    · refine ⟨min 100 (jsRound (value / total * 100)), ?_⟩
      rw [hres]
      push_cast
      rfl

/-- Witness for C9 at `value = 1`, `total = 2` (the result is 50). -/
theorem C9_calculatePercentage_bounds_witness :
    (0 : ℚ) ≤ 1 ∧ (0 : ℚ) ≤ 2 ∧
    (((2 : ℚ) = 0 → calculatePercentage 1 2 = 0) ∧
      ((2 : ℚ) ≠ 0 →
        calculatePercentage 1 2 = min 100 ((jsRound (1 / 2 * 100) : ℚ))) ∧
      0 ≤ calculatePercentage 1 2 ∧
      calculatePercentage 1 2 ≤ 100 ∧
      ∃ n : ℤ, calculatePercentage 1 2 = (n : ℚ)) :=
  ⟨by norm_num, by norm_num,
    C9_calculatePercentage_bounds 1 2 (by norm_num) (by norm_num)⟩

end AssumptionsManager

namespace AssumptionsManager

/-! ## Theorems for claims C1, C2, C6, C7, C10 -/

/-- Filtering a mapped list whose images all satisfy the predicate keeps
everything. -/
theorem filter_map_all_true {α β : Type} (p : β → Bool) (f : α → β) (l : List α)
    (h : ∀ x, p (f x) = true) : (l.map f).filter p = l.map f := by
  induction l with
  | nil => rfl
  | cons x xs ih => simp [List.filter_cons, h, ih]

/-- Filtering a mapped list whose images all fail the predicate keeps
nothing. -/
theorem filter_map_all_false {α β : Type} (p : β → Bool) (f : α → β) (l : List α)
    (h : ∀ x, p (f x) = false) : (l.map f).filter p = [] := by
  induction l with
  | nil => rfl
  | cons x xs ih => simp [List.filter_cons, h, ih]

/-- C1: after N `create_version` calls on a table the recorded version
numbers are exactly the gap-free, duplicate-free set {1, ..., N} (the
spec's serializable allocation makes every admissible concurrent history
one of these sequential ones), and the schema's `UNIQUE(table_id,
version_number)` constraint rejects any duplicate number for a table. -/
theorem C1_version_numbers_contiguous :
    (∀ comments : List String,
      ((createVersions comments).map VersionRec.version_number).Nodup ∧
      ∀ k, k ∈ (createVersions comments).map VersionRec.version_number ↔
        1 ≤ k ∧ k ≤ comments.length) ∧
    ∀ (existing : List VersionKey) (k : VersionKey), k ∈ existing →
      uniqueVersionInsert existing k =
        Except.error "duplicate key value violates unique constraint" := by
  constructor
  · intro comments
    rw [createVersions_numbers]
    exact ⟨nodup_countdown _, fun k => mem_countdown _ k⟩
  · intro existing k hk
    simp [uniqueVersionInsert, hk]

/-- Witness for C1: three calls yield numbers {1, 2, 3}, and re-inserting
the key (t, 1) is rejected by the unique constraint. -/
theorem C1_version_numbers_contiguous_witness :
    (((createVersions ["a", "b", "c"]).map VersionRec.version_number).Nodup ∧
      ∀ k, k ∈ (createVersions ["a", "b", "c"]).map VersionRec.version_number ↔
        1 ≤ k ∧ k ≤ (["a", "b", "c"] : List String).length) ∧
    VersionKey.mk "t" 1 ∈ [VersionKey.mk "t" 1] ∧
    uniqueVersionInsert [VersionKey.mk "t" 1] (VersionKey.mk "t" 1) =
      Except.error "duplicate key value violates unique constraint" :=
  ⟨C1_version_numbers_contiguous.1 ["a", "b", "c"],
   by decide,
   C1_version_numbers_contiguous.2 [VersionKey.mk "t" 1] (VersionKey.mk "t" 1) (by decide)⟩

/-- C7: every Version produced by `create_version` starts with approval
status draft, and a row inserted into `assumption_versions` without an
explicit status receives the schema default 'draft'. -/
theorem C7_new_version_starts_draft :
    (∀ (versions : List VersionRec) (comment : String),
      ((create_version versions comment).head?).map VersionRec.status = some "draft") ∧
    insertedVersionStatus none = "draft" :=
  ⟨fun _ _ => rfl, rfl⟩

/-- C2: in every computed diff, `total_changes` equals `rows_added +
rows_removed + cells_modified`; `cells_modified` equals the number of
modified-status cell diffs across the changed rows; the `rows_added` and
`rows_removed` counts match the changed-rows output; and added/removed
rows contribute no modified cells to the count. -/
theorem C2_diff_summary_components (a b : Snapshot) :
    (compute_diff a b).summary.total_changes =
      (compute_diff a b).summary.rows_added + (compute_diff a b).summary.rows_removed +
        (compute_diff a b).summary.cells_modified ∧
    (compute_diff a b).summary.cells_modified =
      ((compute_diff a b).changes.map (fun ch => modifiedCellCount ch.cells)).sum ∧
    (compute_diff a b).summary.rows_added =
      ((compute_diff a b).changes.filter
        (fun ch => ch.type == RowChangeType.row_added)).length ∧
    (compute_diff a b).summary.rows_removed =
      ((compute_diff a b).changes.filter
        (fun ch => ch.type == RowChangeType.row_removed)).length ∧
    ∀ ch ∈ (compute_diff a b).changes,
      (ch.type = RowChangeType.row_added ∨ ch.type = RowChangeType.row_removed) →
        modifiedCellCount ch.cells = 0 := by
  refine ⟨rfl, ?_, ?_, ?_, ?_⟩
  · show cellsModifiedCount a b = _
    simp only [compute_diff, diffChanges, List.map_append, List.sum_append]
    have hz1 : (((addedRows a b).map (fun r =>
        ({ type := RowChangeType.row_added, row_index := r,
           cells := ChangeCells.dict (rowCells b r) } : RowChange))).map
        (fun ch => modifiedCellCount ch.cells)).sum = 0 := by
      apply sum_map_eq_zero
      intro x hx
      obtain ⟨r, hr, rfl⟩ := List.mem_map.mp hx
      rfl
    have hz2 : (((removedRows a b).map (fun r =>
        ({ type := RowChangeType.row_removed, row_index := r,
           cells := ChangeCells.dict (rowCells a r) } : RowChange))).map
        (fun ch => modifiedCellCount ch.cells)).sum = 0 := by
      apply sum_map_eq_zero
      intro x hx
      obtain ⟨r, hr, rfl⟩ := List.mem_map.mp hx
      rfl
    rw [hz1, hz2, List.map_map]
    simp only [Nat.zero_add]
    rfl
  · show (addedRows a b).length = _
    simp only [compute_diff, diffChanges, List.filter_append]
    rw [filter_map_all_true _ _ _ (fun r => rfl),
        filter_map_all_false _ _ _ (fun r => rfl),
        filter_map_all_false _ _ _ (fun r => rfl)]
    simp
  · show (removedRows a b).length = _
    simp only [compute_diff, diffChanges, List.filter_append]
    rw [filter_map_all_false _ _ _ (fun r => rfl),
        filter_map_all_true _ _ _ (fun r => rfl),
        filter_map_all_false _ _ _ (fun r => rfl)]
    simp
  · intro ch hch htype
    simp only [compute_diff, diffChanges, List.mem_append, List.mem_map] at hch
    rcases hch with (⟨r, hr, rfl⟩ | ⟨r, hr, rfl⟩) | ⟨r, hr, rfl⟩
    · rfl
    · rfl
    · rcases htype with h | h <;> exact RowChangeType.noConfusion h

/-- Witness for C2 at the spec's §8 scenario (rows_added = 1, rows_removed
= 0, cells_modified = 1, total_changes = 2). -/
theorem C2_diff_summary_components_witness :
    (compute_diff scenarioV1 scenarioV2).summary.total_changes =
      (compute_diff scenarioV1 scenarioV2).summary.rows_added +
        (compute_diff scenarioV1 scenarioV2).summary.rows_removed +
        (compute_diff scenarioV1 scenarioV2).summary.cells_modified ∧
    (compute_diff scenarioV1 scenarioV2).summary.cells_modified =
      ((compute_diff scenarioV1 scenarioV2).changes.map
        (fun ch => modifiedCellCount ch.cells)).sum ∧
    (compute_diff scenarioV1 scenarioV2).summary.rows_added =
      ((compute_diff scenarioV1 scenarioV2).changes.filter
        (fun ch => ch.type == RowChangeType.row_added)).length ∧
    (compute_diff scenarioV1 scenarioV2).summary.rows_removed =
      ((compute_diff scenarioV1 scenarioV2).changes.filter
        (fun ch => ch.type == RowChangeType.row_removed)).length ∧
    ∀ ch ∈ (compute_diff scenarioV1 scenarioV2).changes,
      (ch.type = RowChangeType.row_added ∨ ch.type = RowChangeType.row_removed) →
        modifiedCellCount ch.cells = 0 :=
  C2_diff_summary_components scenarioV1 scenarioV2

/-- C6: every changed row of type `row_added`/`row_removed` in a computed
diff carries exactly the defined cells of the respective row as a plain
record (so no cell of it carries an old/new value pair), and the compare
view's `getCellValue` returns exactly `{value, status: 'added'}` resp.
`{value, status: 'removed'}` for its cells, with `oldValue`/`newValue`
absent. -/
theorem C6_added_removed_cell_views (a b : Snapshot) (ch : RowChange) (col : String)
    (hch : ch ∈ (compute_diff a b).changes) :
    (ch.type = RowChangeType.row_added →
      ch.cells = ChangeCells.dict (rowCells b ch.row_index) ∧
      getCellValue ch col =
        some { value := dictGet (rowCells b ch.row_index) col,
               oldValue := none, newValue := none, status := "added" }) ∧
    (ch.type = RowChangeType.row_removed →
      ch.cells = ChangeCells.dict (rowCells a ch.row_index) ∧
      getCellValue ch col =
        some { value := dictGet (rowCells a ch.row_index) col,
               oldValue := none, newValue := none, status := "removed" }) := by
  simp only [compute_diff, diffChanges, List.mem_append, List.mem_map] at hch
  rcases hch with (⟨r, hr, rfl⟩ | ⟨r, hr, rfl⟩) | ⟨r, hr, rfl⟩
  · exact ⟨fun _ => ⟨rfl, rfl⟩, fun h => RowChangeType.noConfusion h⟩
  · exact ⟨fun h => RowChangeType.noConfusion h, fun _ => ⟨rfl, rfl⟩⟩
  · exact ⟨fun h => RowChangeType.noConfusion h, fun h => RowChangeType.noConfusion h⟩

/-- Witness for C6 at the added row (index 1) of the spec's §8 scenario,
column `qx`. -/
theorem C6_added_removed_cell_views_witness :
    ((RowChange.mk RowChangeType.row_added 1
        (ChangeCells.dict (rowCells scenarioV2 1))).type = RowChangeType.row_added →
      (RowChange.mk RowChangeType.row_added 1
        (ChangeCells.dict (rowCells scenarioV2 1))).cells =
        ChangeCells.dict (rowCells scenarioV2
          (RowChange.mk RowChangeType.row_added 1
            (ChangeCells.dict (rowCells scenarioV2 1))).row_index) ∧
      getCellValue (RowChange.mk RowChangeType.row_added 1
        (ChangeCells.dict (rowCells scenarioV2 1))) "qx" =
        some { value := dictGet (rowCells scenarioV2
                 (RowChange.mk RowChangeType.row_added 1
                   (ChangeCells.dict (rowCells scenarioV2 1))).row_index) "qx",
               oldValue := none, newValue := none, status := "added" }) ∧
    ((RowChange.mk RowChangeType.row_added 1
        (ChangeCells.dict (rowCells scenarioV2 1))).type = RowChangeType.row_removed →
      (RowChange.mk RowChangeType.row_added 1
        (ChangeCells.dict (rowCells scenarioV2 1))).cells =
        ChangeCells.dict (rowCells scenarioV1
          (RowChange.mk RowChangeType.row_added 1
            (ChangeCells.dict (rowCells scenarioV2 1))).row_index) ∧
      getCellValue (RowChange.mk RowChangeType.row_added 1
        (ChangeCells.dict (rowCells scenarioV2 1))) "qx" =
        some { value := dictGet (rowCells scenarioV1
                 (RowChange.mk RowChangeType.row_added 1
                   (ChangeCells.dict (rowCells scenarioV2 1))).row_index) "qx",
               oldValue := none, newValue := none, status := "removed" }) :=
  C6_added_removed_cell_views scenarioV1 scenarioV2
    (RowChange.mk RowChangeType.row_added 1 (ChangeCells.dict (rowCells scenarioV2 1)))
    "qx" (by decide)

/-- C10: with `app.current_tenant` set, each of the five tenant-isolation
policies restricts reads and writes to rows of the current tenant: every
row a SELECT returns has that tenant_id, a DELETE never removes another
tenant's row, and an UPDATE leaves every other tenant's row exactly in
place. -/
theorem C10_tenant_isolation {α : Type} (settings : DbSettings) (t : String)
    (hset : settings "app.current_tenant" = some t)
    (policy : TenantRow α → Bool)
    (hp : policy = tenant_isolation_users settings ∨
      policy = tenant_isolation_tables settings ∨
      policy = tenant_isolation_versions settings ∨
      policy = tenant_isolation_data settings ∨
      policy = tenant_isolation_audit settings) :
    (∀ rows r, r ∈ rlsSelect policy rows → r.tenant_id = t) ∧
    (∀ cond rows r, r ∈ rows → r.tenant_id ≠ t → r ∈ rlsDelete policy cond rows) ∧
    (∀ cond f rows out, rlsUpdate policy cond f rows = Except.ok out →
      ∀ i r, rows.get? i = some r → r.tenant_id ≠ t →
        out.get? i = some r) := by
  have hpol : ∀ r : TenantRow α, policy r = true → r.tenant_id = t := by
    intro r hr
    have h1 : tenantIsolationUsing settings r = true := by
      rcases hp with h | h | h | h | h <;> (subst h; exact hr)
    unfold tenantIsolationUsing current_setting at h1
    rw [hset] at h1
    exact eq_of_beq h1
  have hpolF : ∀ r : TenantRow α, r.tenant_id ≠ t → policy r = false := by
    intro r hr
    cases h : policy r
    · rfl
    · exact absurd (hpol r h) hr
  refine ⟨?_, ?_, ?_⟩
  · intro rows r hm
    exact hpol r (List.of_mem_filter hm)
  · intro cond rows r hm ht
    apply List.mem_filter.mpr
    refine ⟨hm, ?_⟩
    simp [hpolF r ht]
  · intro cond f rows out hok i r hi ht
    unfold rlsUpdate at hok
    split at hok
    · cases hok
    · injection hok with hout
      subst hout
      rw [List.get?_map, hi]
      simp [hpolF r ht]

/-- Witness for C10: the versions-table policy on a connection whose
current tenant is `tenant-a`. -/
theorem C10_tenant_isolation_witness :
    (∀ rows (r : TenantRow Unit),
      r ∈ rlsSelect (tenant_isolation_versions exampleSettings) rows →
        r.tenant_id = "tenant-a") ∧
    (∀ cond rows (r : TenantRow Unit), r ∈ rows → r.tenant_id ≠ "tenant-a" →
      r ∈ rlsDelete (tenant_isolation_versions exampleSettings) cond rows) ∧
    (∀ (cond : TenantRow Unit → Bool) (f : TenantRow Unit → TenantRow Unit)
        (rows out : List (TenantRow Unit)),
      rlsUpdate (tenant_isolation_versions exampleSettings) cond f rows = Except.ok out →
      ∀ i r, rows.get? i = some r → r.tenant_id ≠ "tenant-a" →
        out.get? i = some r) :=
  C10_tenant_isolation exampleSettings "tenant-a" rfl
    (tenant_isolation_versions exampleSettings) (Or.inr (Or.inr (Or.inl rfl)))

end AssumptionsManager
